import Mathlib

/-!
Shallow embedding of the `lcm-rust` typed publish/subscribe client
(`src/lcm-rust/lcm/src/lcm.rs`).

The underlying C transport (`lcm_create`, `lcm_subscribe`, `lcm_unsubscribe`,
`lcm_publish`, `lcm_handle`, `lcm_handle_timeout`,
`lcm_subscription_set_queue_capacity`) is an external collaborator; its
behaviour is modelled as explicit inputs (the status codes and tokens it
returns) and explicit outputs (the arguments the wrapper passes to it).
Side effects of the Rust code (mutating the subscription registry, invoking
the user callback, logging) are modelled by explicit state passing and by
result values that record what happened.
-/

namespace LcmSpec

/-- The errors the Rust wrapper surfaces.  In the source they are all
`std::io::Error` values of kind `Other`, distinguished by their message
strings; we give each distinct message its own constructor. -/
inductive LcmError : Type
  /-- "Failed to initialize LCM." (from `Lcm::new`) -/
  | initError
  /-- "LCM: Failed to unsubscribe" (from `Lcm::unsubscribe`) -/
  | unsubscribeError
  /-- "LCM Error" (from `Lcm::publish`, `Lcm::handle`, `Lcm::handle_timeout`) -/
  | lcmError
  /-- "LCM Timeout" (from `Lcm::handle_timeout`) -/
  | timeoutError
deriving DecidableEq, Repr

/-- One subscription record (`LcmSubscription` in `lcm.rs`): the opaque
transport token (`subscription: *mut lcm_subscription_t`, compared only for
equality) and the boxed decode-and-invoke closure (`handler`).  The closure
type is kept abstract as `H`; `subscribeHandler` below is the concrete
closure `Lcm::subscribe` boxes. -/
structure Subscription (H : Type) where
  token : Int
  handler : H
deriving DecidableEq, Repr

/-- The `Lcm` struct: the transport handle (`lcm: *mut lcm_t`) and the
registry of subscriptions (`subscriptions: Mutex<Vec<Arc<LcmSubscription>>>`).
The mutex only serialises access; the functional content is the vector. -/
structure LcmState (H : Type) where
  lcm : Int
  subscriptions : List (Subscription H)
deriving DecidableEq, Repr

/-- `Lcm::new`: calls `lcm_create`; a null pointer (`none`) yields the
initialization error, otherwise the client starts with an empty registry. -/
def lcmNew (H : Type) (createdHandle : Option Int) : Except LcmError (LcmState H) :=
  match createdHandle with
  | none => .error .initError
  | some h => .ok { lcm := h, subscriptions := [] }

/-- What one run of a subscription's decode-and-invoke closure did.
The closure either decoded the buffer and called the user callback with the
decoded message, or logged the decode failure (and did not call the
callback). -/
inductive DispatchOutcome (M : Type) : Type
  | callbackInvoked (msg : M)
  | decodeFailureLogged (buf : List Nat)
deriving DecidableEq, Repr

/-- The closure `Lcm::subscribe` boxes as the subscription's handler: read
the raw buffer out of the `lcm_recv_buf_t`, run `M::decode_with_hash` on it,
and on `Ok` invoke the user callback, on `Err` log the failure without
invoking the callback.  The decode routine is a parameter (`M::decode_with_hash`
lives in the `Message` trait); the buffer is the byte contents of the
receive buffer. -/
def subscribeHandler {M : Type} (decode : List Nat → Option M) (buf : List Nat) :
    DispatchOutcome M :=
  match decode buf with
  | some msg => .callbackInvoked msg
  | none => .decodeFailureLogged buf

/-- `Lcm::subscribe`: build the subscription record around the handler,
register it with the transport (`lcm_subscribe` issues the token, an input
here), push a clone of the `Arc` onto the registry, and return the `Arc`
itself.  The returned record and the record stored in the registry are the
same record (shared ownership). -/
def lcmSubscribe {H : Type} (s : LcmState H) (channel : String) (handler : H)
    (issuedToken : Int) : Subscription H × LcmState H :=
  let sub : Subscription H := { token := issuedToken, handler := handler }
  (sub, { s with subscriptions := s.subscriptions ++ [sub] })

/-- The observable effect of `Lcm::unsubscribe`: the token passed to
`lcm_unsubscribe`, the returned `Result`, and the client state afterwards. -/
structure UnsubscribeResult (H : Type) where
  tokenPassed : Int
  result : Except LcmError Unit
  state : LcmState H
deriving Repr

/-- `Lcm::unsubscribe`: call `lcm_unsubscribe` with the handle's token (the
transport's status is an input), then—unconditionally—retain only the
registry entries whose token differs from the handle's, then map status `0`
to `Ok` and anything else to the unsubscribe error. -/
def lcmUnsubscribe {H : Type} (s : LcmState H) (handler : Subscription H)
    (transportStatus : Int) : UnsubscribeResult H :=
  { tokenPassed := handler.token
    result := if transportStatus = 0 then .ok () else .error .unsubscribeError
    state := { s with
      subscriptions := s.subscriptions.filter (fun sub => sub.token != handler.token) } }

/-- Modelled from the spec: `encode_with_hash` of the `Message` trait
(section 4.1; `message.rs` is not among the source files).  Per the spec,
`encode` is pure and total and `encode_with_hash` is the fingerprint bytes
followed by `encode()`. -/
def encode_with_hash {M : Type} (fingerprint : List Nat) (encode : M → List Nat)
    (m : M) : List Nat :=
  fingerprint ++ encode m

/-- The observable effect of `Lcm::publish`: the channel, buffer pointer
contents and length passed to `lcm_publish`, the returned `Result`, and the
client state afterwards. -/
structure PublishResult (H : Type) where
  channelPassed : String
  bufferPassed : List Nat
  lenPassed : Nat
  result : Except LcmError Unit
  state : LcmState H
deriving Repr

/-- `Lcm::publish`: encode the message with `encode_with_hash`, call
`lcm_publish` with the buffer and its length (the transport's status is an
input), and map status `0` to `Ok` and anything else to the error. -/
def lcmPublish {M H : Type} (s : LcmState H) (channel : String)
    (fingerprint : List Nat) (encode : M → List Nat) (message : M)
    (transportStatus : Int) : PublishResult H :=
  let buffer := encode_with_hash fingerprint encode message
  { channelPassed := channel
    bufferPassed := buffer
    lenPassed := buffer.length
    result := if transportStatus = 0 then .ok () else .error .lcmError
    state := s }

/-- `Lcm::handle`: `lcm_handle` blocks, internally runs the registered
trampolines (their outcomes are the `dispatched` list) and returns a status;
the wrapper maps status `0` to `Ok` and anything else to the error.  The
dispatch outcomes are not consulted. -/
def lcmHandle {M : Type} (transportStatus : Int)
    (dispatched : List (DispatchOutcome M)) : Except LcmError Unit :=
  match dispatched with
  | _ => if transportStatus = 0 then .ok () else .error .lcmError

/-- Rust `as i32` applied to an unsigned value: reduce modulo `2^32` and
reinterpret as a signed 32-bit value. -/
def toI32 (x : Nat) : Int :=
  if x % 4294967296 < 2147483648 then ((x % 4294967296 : Nat) : Int)
  else ((x % 4294967296 : Nat) : Int) - 4294967296

/-- Wrapping `i32` addition (release-mode Rust `+` on `i32`). -/
def i32Add (a b : Int) : Int :=
  (a + b + 2147483648) % 4294967296 - 2147483648

/-- `std::time::Duration`: whole seconds (`u64`) and the sub-second
nanoseconds (`u32`, always `< 10^9`). -/
structure Duration where
  secs : Nat
  nanos : Nat
deriving DecidableEq, Repr

/-- The millisecond argument `Lcm::handle_timeout` passes to
`lcm_handle_timeout`:
`(timeout.as_secs() * 1000) as i32 + (timeout.subsec_nanos() / 1000_000) as i32`.
The `u64` multiplication wraps modulo `2^64`, each `as i32` cast truncates
modulo `2^32` and reinterprets as signed, and the `i32` addition wraps. -/
def timeoutMillis (d : Duration) : Int :=
  i32Add (toI32 ((d.secs * 1000) % 18446744073709551616)) (toI32 (d.nanos / 1000000))

/-- `Lcm::handle_timeout`: call `lcm_handle_timeout` with the computed
millisecond count (the transport is modelled as a function from that
argument to its status), then match `result.cmp(&0)`: `Less` is the error,
`Equal` is the timeout, `Greater` is `Ok`. -/
def lcmHandleTimeout (d : Duration) (transport : Int → Int) : Except LcmError Unit :=
  let result := transport (timeoutMillis d)
  if result < 0 then .error .lcmError
  else if result = 0 then .error .timeoutError
  else .ok ()

/-- The observable effect of `Lcm::subscription_set_queue_capacity`: the
token and count passed to `lcm_subscription_set_queue_capacity` and the
client state afterwards (the Rust function returns `()`). -/
structure QueueCapacityResult (H : Type) where
  tokenPassed : Int
  numMessagesPassed : Nat
  state : LcmState H
deriving DecidableEq, Repr

/-- `Lcm::subscription_set_queue_capacity`: read the handle's token, pass
it and `num_messages` to the transport primitive, and return `()`.  No
client state is touched. -/
def subscription_set_queue_capacity {H : Type} (s : LcmState H)
    (handler : Subscription H) (numMessages : Nat) : QueueCapacityResult H :=
  { tokenPassed := handler.token
    numMessagesPassed := numMessages
    state := s }

/-- A sequence of `Lcm::subscribe` calls on one channel: each entry supplies
the token the transport issues and the handler subscribed. -/
def subscribeAll {H : Type} (s : LcmState H) (channel : String)
    (entries : List (Int × H)) : LcmState H :=
  entries.foldl (fun st e => (lcmSubscribe st channel e.2 e.1).2) s

/-- A sequence of `Lcm::unsubscribe` calls: each entry supplies the handle
passed in and the status the transport returns for it. -/
def unsubscribeAll {H : Type} (s : LcmState H)
    (removals : List (Subscription H × Int)) : LcmState H :=
  removals.foldl (fun st p => (lcmUnsubscribe st p.1 p.2).state) s

/-- Spec-side formula for the amended timeout-millisecond claim: reduce an
integer modulo `2^32` into the signed 32-bit range. -/
def wrapS32 (x : Int) : Int :=
  (x + 2147483648) % 4294967296 - 2147483648

/-! ## Helper lemmas -/

theorem subscribeAll_cons {H : Type} (s : LcmState H) (channel : String)
    (e : Int × H) (t : List (Int × H)) :
    subscribeAll s channel (e :: t)
      = subscribeAll (lcmSubscribe s channel e.2 e.1).2 channel t := rfl

theorem unsubscribeAll_cons {H : Type} (s : LcmState H)
    (r : Subscription H × Int) (t : List (Subscription H × Int)) :
    unsubscribeAll s (r :: t)
      = unsubscribeAll (lcmUnsubscribe s r.1 r.2).state t := rfl

theorem subscribeAll_subscriptions {H : Type} (channel : String)
    (entries : List (Int × H)) (s : LcmState H) :
    (subscribeAll s channel entries).subscriptions
      = s.subscriptions ++ entries.map (fun e => ⟨e.1, e.2⟩) := by
  induction entries generalizing s with
  | nil => simp [subscribeAll]
  | cons e t ih =>
    rw [subscribeAll_cons, ih]
    simp [lcmSubscribe]

theorem unsubscribeAll_subscriptions {H : Type}
    (removals : List (Subscription H × Int)) (s : LcmState H) :
    (unsubscribeAll s removals).subscriptions
      = s.subscriptions.filter
          (fun sub => removals.all (fun p => sub.token != p.1.token)) := by
  induction removals generalizing s with
  | nil => simp [unsubscribeAll]
  | cons r t ih =>
    rw [unsubscribeAll_cons, ih]
    simp only [lcmUnsubscribe, List.filter_filter, List.all_cons]
    congr 1
    funext sub
    exact Bool.and_comm _ _

theorem length_filter_ne_of_nodup {l : List Int} {t : Int}
    (hd : l.Nodup) (ht : t ∈ l) :
    (l.filter (fun u => u != t)).length = l.length - 1 := by
  induction l with
  | nil => cases ht
  | cons a l ih =>
    rcases List.mem_cons.mp ht with h | h
    · have hnot : ∀ u ∈ l, (u != t) = true := by
        intro u hu
        have : u ≠ t := fun hut => (List.nodup_cons.mp hd).1 (h ▸ (hut ▸ hu))
        simpa using this
      have hhead : (a != t) = false := by simp [h]
      simp [List.filter_cons, hhead, List.filter_eq_self.mpr hnot]
    · have hne : (a != t) = true := by
        have : a ≠ t := by
          intro hat; subst hat
          exact (List.nodup_cons.mp hd).1 h
        simpa using this
      have hpos : 0 < l.length := List.length_pos_of_mem h
      have := ih (List.nodup_cons.mp hd).2 h
      simp [List.filter_cons, hne, this]
      omega

theorem length_filter_all_ne {rem l : List Int} (hl : l.Nodup) (hrem : rem.Nodup)
    (hsub : ∀ t ∈ rem, t ∈ l) :
    (l.filter (fun u => rem.all (fun t => u != t))).length
      = l.length - rem.length := by
  induction rem generalizing l with
  | nil => simp
  | cons r rs ih =>
    have hr : r ∈ l := hsub r (by simp)
    have h1 : (l.filter (fun u => u != r)).length = l.length - 1 :=
      length_filter_ne_of_nodup hl hr
    have h2 : (l.filter (fun u => u != r)).Nodup := hl.filter _
    have h3 : ∀ t ∈ rs, t ∈ l.filter (fun u => u != r) := by
      intro t htin
      rw [List.mem_filter]
      refine ⟨hsub t (by simp [htin]), ?_⟩
      have : t ≠ r := by
        intro htr; subst htr
        exact (List.nodup_cons.mp hrem).1 htin
      simpa using this
    have h4 := ih h2 (List.nodup_cons.mp hrem).2 h3
    have h5 : l.filter (fun u => (r :: rs).all (fun t => u != t))
        = (l.filter (fun u => u != r)).filter (fun u => rs.all (fun t => u != t)) := by
      rw [List.filter_filter]
      congr 1
      funext u
      simp [List.all_cons, Bool.and_comm]
    rw [h5, h4, h1]
    simp only [List.length_cons]
    omega

theorem length_filter_token {H : Type} (l : List (Subscription H)) (P : Int → Bool) :
    (l.filter (fun sub => P sub.token)).length
      = ((l.map Subscription.token).filter P).length := by
  induction l with
  | nil => rfl
  | cons a t ih => by_cases h : P a.token <;> simp [List.filter_cons, h, ih]

theorem all_map_token {H : Type} (removals : List (Subscription H × Int))
    (u : Int) :
    (removals.map (fun p => p.1.token)).all (fun t => u != t)
      = removals.all (fun p => u != p.1.token) := by
  induction removals with
  | nil => rfl
  | cons r t ih => simp [List.all_cons, ih]

theorem i32Add_toI32 (a b : Nat) :
    i32Add (toI32 (a % 18446744073709551616)) (toI32 b)
      = wrapS32 ((a : Int) + (b : Int)) := by
  have hmm : a % 18446744073709551616 % 4294967296 = a % 4294967296 :=
    Nat.mod_mod_of_dvd a (by norm_num)
  unfold i32Add toI32 wrapS32
  split <;> split <;> omega

/-! ## Claim theorems -/

/-- C1: if decoding the raw buffer fails, the subscription's
decode-and-invoke closure logs the failure and does not invoke the user
callback, and `Lcm::handle` returns success whenever the transport status
is `0`, regardless of the outcomes of the dispatched trampolines. -/
theorem decode_failure_not_surfaced {M : Type} (decode : List Nat → Option M)
    (buf : List Nat) (dispatched : List (DispatchOutcome M))
    (hfail : decode buf = none) :
    subscribeHandler decode buf = .decodeFailureLogged buf ∧
    lcmHandle (0 : Int) dispatched = .ok () := by
  constructor
  · simp [subscribeHandler, hfail]
  · rfl

/-- Witness for `decode_failure_not_surfaced`. -/
theorem decode_failure_not_surfaced_witness :
    subscribeHandler (fun _ => (none : Option Nat)) [7] = .decodeFailureLogged [7] ∧
    lcmHandle (0 : Int) ([] : List (DispatchOutcome Nat)) = .ok () :=
  decode_failure_not_surfaced (fun _ => none) [7] [] rfl

/-- C2: starting from an empty registry, after `N` subscribe calls (the
transport issuing pairwise distinct tokens) and `M ≤ N` successful
unsubscribe calls on distinct handles whose tokens were subscribed, the
registry holds exactly `N - M` subscription records. -/
theorem subscription_count_invariant {H : Type} (s0 : LcmState H) (channel : String)
    (entries : List (Int × H)) (removals : List (Subscription H × Int))
    (h0 : s0.subscriptions = [])
    (hN : (entries.map Prod.fst).Nodup)
    (hM : (removals.map (fun p => p.1.token)).Nodup)
    (hsub : ∀ p ∈ removals, p.1.token ∈ entries.map Prod.fst)
    (hok : ∀ p ∈ removals, p.2 = 0) :
    (unsubscribeAll (subscribeAll s0 channel entries) removals).subscriptions.length
      = entries.length - removals.length := by
  rw [unsubscribeAll_subscriptions, subscribeAll_subscriptions, h0, List.nil_append]
  have key := length_filter_token (H := H)
      (entries.map (fun e => ⟨e.1, e.2⟩))
      (fun u => (removals.map (fun p => p.1.token)).all (fun t => u != t))
  have hpred : (fun (sub : Subscription H) =>
        (removals.map (fun p => p.1.token)).all (fun t => sub.token != t))
      = (fun sub => removals.all (fun p => sub.token != p.1.token)) := by
    funext sub
    exact all_map_token removals sub.token
  rw [hpred] at key
  have e1 : (entries.map (fun e => (⟨e.1, e.2⟩ : Subscription H))).map Subscription.token
      = entries.map Prod.fst := by
    rw [List.map_map]
    rfl
  rw [key, e1]
  have hsub2 : ∀ t ∈ removals.map (fun p => p.1.token), t ∈ entries.map Prod.fst := by
    intro t ht
    rcases List.mem_map.mp ht with ⟨p, hp, rfl⟩
    exact hsub p hp
  rw [length_filter_all_ne hN hM hsub2]
  simp

/-- Witness for `subscription_count_invariant`: three subscriptions, one
unsubscription, two records remain. -/
theorem subscription_count_invariant_witness :
    (unsubscribeAll
        (subscribeAll (⟨0, []⟩ : LcmState Nat) "channel" [(1, 10), (2, 20), (3, 30)])
        [(⟨2, 20⟩, 0)]).subscriptions.length = 2 :=
  subscription_count_invariant _ _ _ _ rfl (by decide) (by decide) (by decide)
    (by decide)

/-- C3: `Lcm::handle_timeout` maps the transport status to exactly three
outcomes: negative to the error, zero (no message within the duration) to
the timeout error, positive to success; it never succeeds on status `0`. -/
theorem handle_timeout_trichotomy (d : Duration) (transport : Int → Int) :
    (lcmHandleTimeout d transport = .ok () ↔ 0 < transport (timeoutMillis d)) ∧
    (lcmHandleTimeout d transport = .error .timeoutError ↔
      transport (timeoutMillis d) = 0) ∧
    (lcmHandleTimeout d transport = .error .lcmError ↔
      transport (timeoutMillis d) < 0) := by
  unfold lcmHandleTimeout
  generalize transport (timeoutMillis d) = r
  by_cases h1 : r < 0
  · rw [if_pos h1]
    refine ⟨iff_of_false ?_ ?_, iff_of_false ?_ ?_, iff_of_true rfl h1⟩
    · simp
    · omega
    · simp
    · omega
  · rw [if_neg h1]
    by_cases h2 : r = 0
    · rw [if_pos h2]
      refine ⟨iff_of_false ?_ ?_, iff_of_true rfl h2, iff_of_false ?_ ?_⟩
      · simp
      · omega
      · simp
      · omega
    · rw [if_neg h2]
      refine ⟨iff_of_true rfl ?_, iff_of_false ?_ ?_, iff_of_false ?_ ?_⟩
      · omega
      · simp
      · omega
      · simp
      · omega

/-- C4: `Lcm::unsubscribe` passes the handle's token to the transport,
removes the matching entries from the registry (leaving the rest), and
returns an error exactly when the transport reports a non-zero status. -/
theorem unsubscribe_spec {H : Type} (s : LcmState H) (h : Subscription H)
    (status : Int) :
    (lcmUnsubscribe s h status).tokenPassed = h.token ∧
    (lcmUnsubscribe s h status).state.subscriptions
      = s.subscriptions.filter (fun sub => sub.token != h.token) ∧
    ((lcmUnsubscribe s h status).result = .ok () ↔ status = 0) := by
  refine ⟨rfl, rfl, ?_⟩
  by_cases hs : status = 0 <;> simp [lcmUnsubscribe, hs]

/-- C5: `Lcm::publish` passes the `encode_with_hash` buffer and its length
(and the channel) to the transport's publish primitive, returns an error
exactly when the transport reports a non-zero status, and leaves the client
state (the subscription registry) unchanged. -/
theorem publish_spec {M H : Type} (s : LcmState H) (channel : String)
    (fingerprint : List Nat) (encode : M → List Nat) (message : M)
    (status : Int) :
    (lcmPublish s channel fingerprint encode message status).channelPassed
      = channel ∧
    (lcmPublish s channel fingerprint encode message status).bufferPassed
      = encode_with_hash fingerprint encode message ∧
    (lcmPublish s channel fingerprint encode message status).lenPassed
      = (encode_with_hash fingerprint encode message).length ∧
    ((lcmPublish s channel fingerprint encode message status).result = .ok ()
      ↔ status = 0) ∧
    (lcmPublish s channel fingerprint encode message status).state = s := by
  refine ⟨rfl, rfl, rfl, ?_, rfl⟩
  by_cases hs : status = 0 <;> simp [lcmPublish, hs]

/-- C6: `Lcm::new` fails with the initialization error exactly when the
transport's create primitive returns a null handle; on success the client's
registry is empty. -/
theorem new_spec (H : Type) (h : Int) :
    lcmNew H none = .error .initError ∧
    lcmNew H (some h) = .ok { lcm := h, subscriptions := [] } :=
  ⟨rfl, rfl⟩

/-- C7: subscribing the same channel twice with two different callbacks
creates two independent records, each with its own transport token and
handler, and each call returns the very record stored in the registry. -/
theorem subscribe_twice_independent {H : Type} (s0 : LcmState H) (channel : String)
    (f1 f2 : H) (t1 t2 : Int)
    (h0 : s0.subscriptions = []) (hf : f1 ≠ f2) :
    (lcmSubscribe (lcmSubscribe s0 channel f1 t1).2 channel f2 t2).2.subscriptions
      = [(lcmSubscribe s0 channel f1 t1).1,
         (lcmSubscribe (lcmSubscribe s0 channel f1 t1).2 channel f2 t2).1] ∧
    (lcmSubscribe s0 channel f1 t1).1.handler = f1 ∧
    (lcmSubscribe (lcmSubscribe s0 channel f1 t1).2 channel f2 t2).1.handler = f2 ∧
    (lcmSubscribe s0 channel f1 t1).1.token = t1 ∧
    (lcmSubscribe (lcmSubscribe s0 channel f1 t1).2 channel f2 t2).1.token = t2 ∧
    (lcmSubscribe s0 channel f1 t1).1
      ≠ (lcmSubscribe (lcmSubscribe s0 channel f1 t1).2 channel f2 t2).1 := by
  refine ⟨?_, rfl, rfl, rfl, rfl, ?_⟩
  · simp [lcmSubscribe, h0]
  · intro hEq
    exact hf (congrArg Subscription.handler hEq)

/-- Witness for `subscribe_twice_independent`. -/
theorem subscribe_twice_independent_witness :
    (lcmSubscribe (lcmSubscribe (⟨0, []⟩ : LcmState Nat) "channel" 0 5).2
        "channel" 1 6).2.subscriptions
      = [(lcmSubscribe (⟨0, []⟩ : LcmState Nat) "channel" 0 5).1,
         (lcmSubscribe (lcmSubscribe (⟨0, []⟩ : LcmState Nat) "channel" 0 5).2
            "channel" 1 6).1] ∧
    (lcmSubscribe (⟨0, []⟩ : LcmState Nat) "channel" 0 5).1.handler = 0 ∧
    (lcmSubscribe (lcmSubscribe (⟨0, []⟩ : LcmState Nat) "channel" 0 5).2
        "channel" 1 6).1.handler = 1 ∧
    (lcmSubscribe (⟨0, []⟩ : LcmState Nat) "channel" 0 5).1.token = 5 ∧
    (lcmSubscribe (lcmSubscribe (⟨0, []⟩ : LcmState Nat) "channel" 0 5).2
        "channel" 1 6).1.token = 6 ∧
    (lcmSubscribe (⟨0, []⟩ : LcmState Nat) "channel" 0 5).1
      ≠ (lcmSubscribe (lcmSubscribe (⟨0, []⟩ : LcmState Nat) "channel" 0 5).2
          "channel" 1 6).1 :=
  subscribe_twice_independent ⟨0, []⟩ "channel" 0 1 5 6 rfl (by decide)

/-- C8: the registry removal in `Lcm::unsubscribe` is unconditional: even
when the transport rejects the token (non-zero status, so an error is
returned), every entry whose token equals the handle's token is gone. -/
theorem unsubscribe_removes_even_on_error {H : Type} (s : LcmState H)
    (h : Subscription H) (status : Int) (hrej : status ≠ 0) :
    (lcmUnsubscribe s h status).result = .error .unsubscribeError ∧
    (lcmUnsubscribe s h status).state.subscriptions
      = s.subscriptions.filter (fun sub => sub.token != h.token) := by
  refine ⟨?_, rfl⟩
  simp [lcmUnsubscribe, hrej]

/-- Witness for `unsubscribe_removes_even_on_error`. -/
theorem unsubscribe_removes_even_on_error_witness :
    (lcmUnsubscribe (⟨0, [⟨1, 0⟩, ⟨2, 5⟩]⟩ : LcmState Nat) ⟨1, 0⟩ (-1)).result
      = .error .unsubscribeError ∧
    (lcmUnsubscribe (⟨0, [⟨1, 0⟩, ⟨2, 5⟩]⟩ : LcmState Nat) ⟨1, 0⟩ (-1)).state.subscriptions
      = [⟨1, 0⟩, ⟨2, 5⟩].filter
          (fun sub => sub.token != (⟨1, 0⟩ : Subscription Nat).token) :=
  unsubscribe_removes_even_on_error _ _ _ (by decide)

/-- C9 counterexample: at `d = 2147483.648 s` (exactly `2^31` milliseconds)
the code passes `-2147483648` to the transport, while the claim's formula —
`as_secs() * 1000` truncated to `i32`, plus `subsec_nanos() / 1_000_000` —
gives `2147483648`: the `i32` addition itself also wraps. -/
theorem timeout_millis_claim_counterexample :
    timeoutMillis { secs := 2147483, nanos := 648000000 } = -2147483648 ∧
    toI32 (2147483 * 1000) + ((648000000 / 1000000 : Nat) : Int) = 2147483648 ∧
    timeoutMillis { secs := 2147483, nanos := 648000000 }
      ≠ toI32 (2147483 * 1000) + ((648000000 / 1000000 : Nat) : Int) := by
  decide

/-- C9 (amended): the millisecond count passed to the transport equals
`as_secs() * 1000 + subsec_nanos() / 1_000_000` reduced modulo `2^32` and
interpreted as a signed 32-bit value; sub-millisecond durations are passed
as `0`, and durations of `2^31` milliseconds or more wrap around and can be
passed as a negative value. -/
theorem timeout_millis_spec (d : Duration) :
    timeoutMillis d
      = wrapS32 (((d.secs * 1000 : Nat) : Int) + ((d.nanos / 1000000 : Nat) : Int)) ∧
    (d.secs = 0 → d.nanos < 1000000 → timeoutMillis d = 0) ∧
    timeoutMillis { secs := 4000000, nanos := 0 } < 0 := by
  refine ⟨i32Add_toI32 _ _, ?_, by decide⟩
  intro h1 h2
  have hz : d.nanos / 1000000 = 0 := Nat.div_eq_of_lt h2
  unfold timeoutMillis
  rw [h1, hz]
  decide

/-- Witness for `timeout_millis_spec` at a sub-millisecond duration. -/
theorem timeout_millis_spec_witness :
    timeoutMillis { secs := 0, nanos := 5 } = 0 :=
  (timeout_millis_spec { secs := 0, nanos := 5 }).2.1 rfl (by decide)

/-- C10: `Lcm::subscription_set_queue_capacity` only forwards the handle's
token and the message count to the transport primitive; it returns no value
and the client state is unchanged. -/
theorem set_queue_capacity_frame {H : Type} (s : LcmState H) (h : Subscription H)
    (n : Nat) :
    (subscription_set_queue_capacity s h n).tokenPassed = h.token ∧
    (subscription_set_queue_capacity s h n).numMessagesPassed = n ∧
    (subscription_set_queue_capacity s h n).state = s :=
  ⟨rfl, rfl, rfl⟩

end LcmSpec
